import Mathlib

/-!
Verification development for the prompt-manager storage layer.

The Go code under verification is shallowly embedded below:
SQLite tables become lists of row structures, SQL statements become pure
functions on a `DBState`, SQL transactions become all-or-nothing `Except`
results (an error leaves the caller holding the unchanged input state,
mirroring `defer tx.Rollback()` / `tx.Commit()`), and Go's `len` on a
string becomes the UTF-8 byte size.
-/

namespace PromptManager

/-! ## Connection string construction (`database.Config`, `buildConnectionString`) -/

/-- Embedding of `database.Config` (db.go), restricted to the fields read by
`buildConnectionString`.  `busyTimeout` is a Go `time.Duration`, i.e. a count
of nanoseconds. -/
structure Config where
  databasePath : String
  busyTimeout : Int
  walMode : Bool
  synchronous : String
deriving Repr, DecidableEq

/-- Embedding of `buildConnectionString` (db.go).  Go's
`int(config.BusyTimeout/time.Millisecond)` is integer division truncating
toward zero, i.e. `Int.tdiv`. -/
def buildConnectionString (config : Config) : String :=
  let connStr := config.databasePath ++ "?"
  let connStr := connStr ++ "foreign_keys=1"
  let connStr :=
    if config.busyTimeout > 0 then
      connStr ++ "&_busy_timeout=" ++ toString (config.busyTimeout.tdiv 1000000)
    else connStr
  let connStr := if config.walMode then connStr ++ "&_journal_mode=WAL" else connStr
  let connStr :=
    if config.synchronous ≠ "" then connStr ++ "&_sync=" ++ config.synchronous
    else connStr
  connStr

/-! ## Data model (schema.sql, conversations.go, ratings.go)

Rows carry the columns the verified operations read or write; timestamp
columns are omitted (no claim below depends on them).  Go's `len` on a
string is its UTF-8 byte count, embedded as `String.utf8ByteSize`. -/

/-- A row of the `conversations` table. -/
structure ConversationRow where
  id : Nat
  session_id : String
  title : Option String
  prompt_count : Nat
  total_characters : Nat
  working_directory : Option String
  transcript_path : Option String
deriving Repr, DecidableEq

/-- A row of the `messages` table. -/
structure MessageRow where
  id : Nat
  conversation_id : Nat
  message_type : String
  content : String
  character_count : Nat
  tool_calls : Option String
  execution_time : Option Int
deriving Repr, DecidableEq

/-- A row of the `ratings` table. -/
structure RatingRow where
  id : Nat
  conversation_id : Option Nat
  message_id : Option Nat
  rating : Nat
  comment : Option String
deriving Repr, DecidableEq

/-- The SQLite database: table contents plus the AUTOINCREMENT counters.
Rows are kept in rowid (insertion) order. -/
structure DBState where
  conversations : List ConversationRow
  messages : List MessageRow
  ratings : List RatingRow
  nextConvId : Nat
  nextMsgId : Nat
  nextRatingId : Nat
deriving Repr, DecidableEq

/-- A freshly migrated, empty database. -/
def initState : DBState :=
  { conversations := [], messages := [], ratings := []
    nextConvId := 1, nextMsgId := 1, nextRatingId := 1 }

/-- Errors surfaced by the storage layer: the sentinel errors of errors.go,
SQLite CHECK/FK violations, the Go-side rating range error, and the
`sql.Row.Scan` failure on a NULL aggregate. -/
inductive DBError where
  | conversationNotFound
  | ratingNotFound
  | checkViolation
  | invalidRating
  | nullScan
deriving Repr, DecidableEq

/-! ## Conversation operations (conversations.go) -/

/-- Embedding of `DB.CreateConversation`: `INSERT INTO conversations
(session_id, title, working_directory, transcript_path)`; `prompt_count` and
`total_characters` take their schema defaults of 0. -/
def CreateConversation (s : DBState) (sessionID : String)
    (title workingDir transcriptPath : Option String) :
    ConversationRow × DBState :=
  let conv : ConversationRow :=
    { id := s.nextConvId, session_id := sessionID, title := title
      prompt_count := 0, total_characters := 0
      working_directory := workingDir, transcript_path := transcriptPath }
  (conv, { s with conversations := s.conversations ++ [conv]
                  nextConvId := s.nextConvId + 1 })

/-- Embedding of `DB.GetConversationBySessionID`: `SELECT ... FROM
conversations WHERE session_id = ?` read through `QueryRow` (first matching
row in rowid order); `sql.ErrNoRows` maps to `ErrConversationNotFound`. -/
def GetConversationBySessionID (s : DBState) (sessionID : String) :
    Except DBError ConversationRow :=
  match s.conversations.find? (fun c => c.session_id == sessionID) with
  | some conv => .ok conv
  | none => .error .conversationNotFound

/-- Embedding of `handlers.GetOrCreateConversation` (common.go): look the
session up first; on the `conversation not found` error create a fresh
conversation with a `nil` title.  `workingDir`/`transcriptPath` stand for
`ExtractStringFromData(data, "cwd")` / `.. "transcript_path")`. -/
def GetOrCreateConversation (s : DBState) (sessionID : String)
    (workingDir transcriptPath : Option String) :
    Except DBError (Nat × DBState) :=
  match GetConversationBySessionID s sessionID with
  | .ok conv => .ok (conv.id, s)
  | .error e =>
    if e == .conversationNotFound then
      let (newConv, s') := CreateConversation s sessionID none workingDir transcriptPath
      .ok (newConv.id, s')
    else .error e

/-- Embedding of `DB.DeleteConversation`: one transaction that deletes the
conversation's messages, then the conversation row; `ON DELETE CASCADE`
(schema.sql) removes ratings referencing the deleted messages or the deleted
conversation.  Zero rows affected by the conversation delete means
`ErrConversationNotFound`, and the deferred rollback discards the whole
transaction — modelled by returning the error with no new state. -/
def DeleteConversation (s : DBState) (id : Nat) : Except DBError DBState :=
  let deletedMsgIds := (s.messages.filter (fun m => m.conversation_id == id)).map (·.id)
  let messages' := s.messages.filter (fun m => !(m.conversation_id == id))
  let ratings' := s.ratings.filter (fun r =>
    match r.message_id with
    | some mid => !(deletedMsgIds.contains mid)
    | none => true)
  let rowsAffected := (s.conversations.filter (fun c => c.id == id)).length
  let conversations' := s.conversations.filter (fun c => !(c.id == id))
  let ratings'' := ratings'.filter (fun r => !(r.conversation_id == some id))
  if rowsAffected == 0 then .error .conversationNotFound
  else .ok { s with conversations := conversations'
                    messages := messages'
                    ratings := ratings'' }

/-! ## Message creation (conversations.go `CreateMessage` plus the
`update_conversation_stats` trigger of schema.sql) -/

/-- Embedding of `DB.CreateMessage`: `characterCount := len(content)` is
computed by the store, then `INSERT INTO messages ...`.  The insert is
subject to the schema's `CHECK (message_type IN ('prompt','response'))` and
the foreign key on `conversation_id`; a violated constraint fails the insert
and writes nothing.  A successful insert fires the `AFTER INSERT` trigger
`update_conversation_stats`, which runs `UPDATE conversations SET
prompt_count = prompt_count + 1, total_characters = total_characters +
NEW.character_count WHERE id = NEW.conversation_id`. -/
def CreateMessage (s : DBState) (conversationID : Nat)
    (messageType content : String)
    (toolCalls : Option String) (executionTime : Option Int) :
    Except DBError (MessageRow × DBState) :=
  let characterCount := content.utf8ByteSize
  if !(messageType == "prompt" || messageType == "response") then
    .error .checkViolation
  else if !(s.conversations.any (fun c => c.id == conversationID)) then
    .error .checkViolation
  else
    let msg : MessageRow :=
      { id := s.nextMsgId, conversation_id := conversationID
        message_type := messageType, content := content
        character_count := characterCount
        tool_calls := toolCalls, execution_time := executionTime }
    let conversations' := s.conversations.map (fun c =>
      if c.id == conversationID then
        { c with prompt_count := c.prompt_count + 1
                 total_characters := c.total_characters + characterCount }
      else c)
    .ok (msg, { s with messages := s.messages ++ [msg]
                       conversations := conversations'
                       nextMsgId := s.nextMsgId + 1 })

/-! ## Rating operations (ratings.go, ratings table of schema.sql) -/

/-- A raw `INSERT INTO ratings (conversation_id, message_id, rating,
comment)`, subject to the table constraints of schema.sql: `CHECK (rating >=
1 AND rating <= 5)`, the exactly-one-parent `CHECK ((conversation_id IS NOT
NULL AND message_id IS NULL) OR (conversation_id IS NULL AND message_id IS
NOT NULL))`, and the two foreign keys.  A violated constraint rejects the
insert and writes no row. -/
def insertRating (s : DBState) (conversationId messageId : Option Nat)
    (rating : Nat) (comment : Option String) :
    Except DBError (RatingRow × DBState) :=
  if !(1 ≤ rating && rating ≤ 5) then .error .checkViolation
  else if !((conversationId.isSome && messageId.isNone)
            || (conversationId.isNone && messageId.isSome)) then
    .error .checkViolation
  else if !(conversationId.all (fun cid => s.conversations.any (fun c => c.id == cid))) then
    .error .checkViolation
  else if !(messageId.all (fun mid => s.messages.any (fun m => m.id == mid))) then
    .error .checkViolation
  else
    let r : RatingRow :=
      { id := s.nextRatingId, conversation_id := conversationId
        message_id := messageId, rating := rating, comment := comment }
    .ok (r, { s with ratings := s.ratings ++ [r]
                     nextRatingId := s.nextRatingId + 1 })

/-- Embedding of `DB.CreateConversationRating`: the Go-side range check, then
`INSERT INTO ratings (conversation_id, rating, comment)` with `message_id`
left NULL. -/
def CreateConversationRating (s : DBState) (conversationID rating : Nat)
    (comment : Option String) : Except DBError (RatingRow × DBState) :=
  if rating < 1 || 5 < rating then .error .invalidRating
  else insertRating s (some conversationID) none rating comment

/-- Embedding of `DB.CreateMessageRating`: the Go-side range check, then
`INSERT INTO ratings (message_id, rating, comment)` with `conversation_id`
left NULL. -/
def CreateMessageRating (s : DBState) (messageID rating : Nat)
    (comment : Option String) : Except DBError (RatingRow × DBState) :=
  if rating < 1 || 5 < rating then .error .invalidRating
  else insertRating s none (some messageID) rating comment

/-- The result row set of `SELECT rating, COUNT(*) FROM ratings GROUP BY
rating`, read as the `map[int]int` the Go code fills from it: a key is
present exactly when at least one row has that rating, and maps to the group
size. -/
def distributionOf (rs : List RatingRow) (v : Nat) : Option Nat :=
  let c := (rs.filter (fun r => r.rating == v)).length
  if c == 0 then none else some c

/-- `SELECT AVG(rating) FROM ratings`: SQL `AVG` over an empty table is
NULL, otherwise the exact arithmetic mean (modelled in `ℚ`; the Go side
holds it in a float64). -/
def sqlAvg (vals : List ℚ) : Option ℚ :=
  if vals.length == 0 then none else some (vals.sum / vals.length)

/-- `sql.Row.Scan` of the `AVG` aggregate into a non-nullable `float64`:
scanning SQL NULL fails with a conversion error (which is not
`sql.ErrNoRows`, so `GetRatingStats` propagates it). -/
def scanFloat : Option ℚ → Except DBError ℚ
  | none => .error .nullScan
  | some v => .ok v

/-- The stats record `DB.GetRatingStats` assembles (`average_rating`,
`distribution`, `total_ratings`). -/
structure RatingStats where
  average_rating : ℚ
  distribution : Nat → Option Nat
  total_ratings : Nat

/-- Embedding of `DB.GetRatingStats`: scan `AVG(rating)` (failing on the
NULL produced by an empty table), then the `GROUP BY` distribution, then
`COUNT(*)`. -/
def GetRatingStats (s : DBState) : Except DBError RatingStats := do
  let avg ← scanFloat (sqlAvg (s.ratings.map (fun r => (r.rating : ℚ))))
  .ok { average_rating := avg
        distribution := distributionOf s.ratings
        total_ratings := s.ratings.length }

/-! ## Migrations (db.go `RunMigrations`, `extractVersionFromFilename`) -/

/-- Embedding of `filepath.Base` for the slash-separated paths produced by
`filepath.Glob(filepath.Join(dir, "*.up.sql"))`. -/
def filepathBase (path : String) : String :=
  match (path.toList.splitOn '/').getLast? with
  | some comp => comp.asString
  | none => path

/-- Embedding of `extractVersionFromFilename`: the first three characters of
the base filename (the whole base when shorter). -/
def extractVersionFromFilename (filename : String) : String :=
  let base := filepathBase filename
  if base.length ≥ 3 then (base.toList.take 3).asString else base

/-- One discovered `*.up.sql` migration file.  `execOk` / `recordOk` are the
failure injection points of the run: whether `tx.Exec(content)` and the
bookkeeping `INSERT INTO schema_migrations` succeed. -/
structure MigrationFile where
  filename : String
  content : String
  execOk : Bool
  recordOk : Bool
deriving Repr, DecidableEq

/-- The migration-relevant database state: the statement bodies successfully
executed against the schema, in order, and the `schema_migrations` version
rows, in insertion order. -/
structure MigState where
  schema : List String
  recorded : List String
deriving Repr, DecidableEq

/-- Embedding of `DB.RunMigrations` over the glob-discovered files: skip a
file whose version is already recorded; otherwise execute its body and
record its version inside one transaction (`Begin` / two `Exec`s /
`Commit`), rolling the transaction back and aborting the run with an error
naming the file if either step fails.  Returns the final state and the
error, if any. -/
def runMigrations (s : MigState) : List MigrationFile → MigState × Option String
  | [] => (s, none)
  | f :: rest =>
    let version := extractVersionFromFilename f.filename
    if s.recorded.contains version then
      runMigrations s rest
    else if !f.execOk then
      (s, some ("failed to execute migration " ++ f.filename))
    else if !f.recordOk then
      (s, some ("failed to record migration " ++ f.filename))
    else
      runMigrations { schema := s.schema ++ [f.content]
                      recorded := s.recorded ++ [version] } rest

/-! ## Auxiliary invariants and demonstration states -/

/-- Every stored message's `character_count` equals the byte length of its
stored content. -/
def charCountInv (s : DBState) : Prop :=
  ∀ m ∈ s.messages, m.character_count = m.content.utf8ByteSize

/-- Every stored rating references exactly one parent. -/
def ratingParentInv (s : DBState) : Prop :=
  ∀ r ∈ s.ratings,
    (r.conversation_id.isSome ∧ r.message_id = none) ∨
    (r.conversation_id = none ∧ r.message_id.isSome)

/-- The state reached by a rating insert, or the unchanged input state when
the insert is rejected. -/
def afterInsertRating (s : DBState) (conversationId messageId : Option Nat)
    (rating : Nat) (comment : Option String) : DBState :=
  match insertRating s conversationId messageId rating comment with
  | .ok (_, s') => s'
  | .error _ => s

/-- An empty database holding one conversation for session `"s1"`
(the spec's concrete scenario). -/
def demoConvState : DBState :=
  (CreateConversation initState "s1" none none none).2

/-- `demoConvState` after rating the conversation `5` and then `3` through
`CreateConversationRating`. -/
def demoState : DBState :=
  let s1 := demoConvState
  let s2 := match CreateConversationRating s1 1 5 none with
    | .ok (_, s) => s
    | .error _ => s1
  match CreateConversationRating s2 1 3 none with
    | .ok (_, s) => s
    | .error _ => s2

end PromptManager

namespace PromptManager

/-- C1: refuted on the code — the `update_conversation_stats` trigger
increments `prompt_count` on *every* message insert, so inserting a
`response` message into a fresh conversation leaves `prompt_count = 1`
although the conversation holds zero `prompt`-typed messages (the spec and
the models-layer `Conversation.AddMessage` both count prompts only).
`total_characters` does advance by the content length as claimed. -/
theorem createMessage_response_bumps_prompt_count :
    ∃ msg s₂, CreateMessage demoConvState 1 "response" "hi" none none = .ok (msg, s₂) ∧
      (∃ c ∈ s₂.conversations, c.id = 1 ∧ c.prompt_count = 1 ∧ c.total_characters = 2) ∧
      (s₂.messages.filter
        (fun m => m.conversation_id == 1 && m.message_type == "prompt")).length = 0 := by
  refine ⟨_, _, rfl, ?_, ?_⟩ <;> decide

/-- C10: on an empty ratings table `SELECT AVG(rating)` yields NULL, which
fails to scan into the non-nullable float, so `GetRatingStats` returns an
error; every successful stats snapshot therefore comes from a store holding
at least one rating. -/
theorem getRatingStats_empty_fails (s : DBState) :
    (s.ratings = [] → GetRatingStats s = .error .nullScan) ∧
    (∀ stats, GetRatingStats s = .ok stats → s.ratings ≠ []) := by
  constructor
  · intro h
    simp only [GetRatingStats, h]
    rfl
  · intro stats hok h
    rw [show GetRatingStats s = .error .nullScan by simp only [GetRatingStats, h]; rfl] at hok
    cases hok

/-- Witness for `getRatingStats_empty_fails` at the empty database. -/
theorem getRatingStats_empty_fails_witness :
    (initState.ratings = [] → GetRatingStats initState = .error .nullScan) ∧
    (∀ stats, GetRatingStats initState = .ok stats → initState.ratings ≠ []) :=
  getRatingStats_empty_fails initState

/-- C7: `CreateMessage` computes `character_count` as the length of the
content argument at write time (no caller-supplied count exists in its
interface), so a store in which every message satisfies
`character_count = len(content)` still satisfies it after any successful
`CreateMessage`. -/
theorem CreateMessage_character_count (s : DBState) (cid : Nat)
    (mt content : String) (tc : Option String) (et : Option Int)
    (hmt : mt = "prompt" ∨ mt = "response")
    (hcid : ∃ c ∈ s.conversations, c.id = cid)
    (hinv : charCountInv s) :
    ∃ msg s', CreateMessage s cid mt content tc et = .ok (msg, s') ∧
      msg.character_count = content.utf8ByteSize ∧
      msg.content = content ∧ charCountInv s' := by
  have h1 : (mt == "prompt" || mt == "response") = true := by
    rcases hmt with h | h <;> simp [h]
  have h2 : s.conversations.any (fun c => c.id == cid) = true := by
    rcases hcid with ⟨c, hc, hid⟩
    exact List.any_eq_true.mpr ⟨c, hc, by simp [hid]⟩
  refine ⟨⟨s.nextMsgId, cid, mt, content, content.utf8ByteSize, tc, et⟩,
    { s with
        messages := s.messages ++ [⟨s.nextMsgId, cid, mt, content, content.utf8ByteSize, tc, et⟩]
        conversations := s.conversations.map (fun c =>
          if c.id == cid then
            { c with prompt_count := c.prompt_count + 1
                     total_characters := c.total_characters + content.utf8ByteSize }
          else c)
        nextMsgId := s.nextMsgId + 1 },
    ?_, rfl, rfl, ?_⟩
  · unfold CreateMessage
    simp [h1, h2]
  · intro m hm
    rcases List.mem_append.mp hm with hold | hnew
    · exact hinv m hold
    · rcases List.mem_singleton.mp hnew with rfl
      rfl

/-- Witness for `CreateMessage_character_count`: the spec scenario's prompt
`"hello"` against the fresh `"s1"` conversation. -/
theorem CreateMessage_character_count_witness :
    ∃ msg s', CreateMessage demoConvState 1 "prompt" "hello" none none = .ok (msg, s') ∧
      msg.character_count = "hello".utf8ByteSize ∧
      msg.content = "hello" ∧ charCountInv s' :=
  CreateMessage_character_count demoConvState 1 "prompt" "hello" none none
    (Or.inl rfl) (by decide)
    (by intro m hm; simp [demoConvState, CreateConversation, initState] at hm)

/-- C6: get-or-create is idempotent in the session identifier — starting
from a store with no conversation for `sid`, the first call creates one row
and returns its id, and a second call finds that row by the natural-key
lookup, returns the same id, and leaves the store unchanged, with exactly
one conversation for `sid` in total. -/
theorem GetOrCreateConversation_idempotent (s : DBState) (sid : String)
    (wd tp : Option String)
    (h : ∀ c ∈ s.conversations, c.session_id ≠ sid) :
    ∃ id s₁, GetOrCreateConversation s sid wd tp = .ok (id, s₁) ∧
      GetOrCreateConversation s₁ sid wd tp = .ok (id, s₁) ∧
      s₁.conversations.length = s.conversations.length + 1 ∧
      (s₁.conversations.filter (fun c => c.session_id == sid)).length = 1 := by
  have hfind : s.conversations.find? (fun c => c.session_id == sid) = none :=
    List.find?_eq_none.mpr (fun c hc => by simp [h c hc])
  refine ⟨s.nextConvId,
    { s with conversations := s.conversations ++ [⟨s.nextConvId, sid, none, 0, 0, wd, tp⟩]
             nextConvId := s.nextConvId + 1 }, ?_, ?_, ?_, ?_⟩
  · simp [GetOrCreateConversation, GetConversationBySessionID, CreateConversation, hfind]
  · have hfind1 : (s.conversations ++ [(⟨s.nextConvId, sid, none, 0, 0, wd, tp⟩ : ConversationRow)]).find?
        (fun c => c.session_id == sid) = some ⟨s.nextConvId, sid, none, 0, 0, wd, tp⟩ := by
      rw [List.find?_append, hfind]
      simp
    simp [GetOrCreateConversation, GetConversationBySessionID, hfind1]
  · simp
  · rw [List.filter_append]
    have : s.conversations.filter (fun c => c.session_id == sid) = [] :=
      List.filter_eq_nil_iff.mpr (fun c hc => by simp [h c hc])
    simp [this]

/-- Witness for `GetOrCreateConversation_idempotent` on the empty store and
session `"s1"`. -/
theorem GetOrCreateConversation_idempotent_witness :
    ∃ id s₁, GetOrCreateConversation initState "s1" none none = .ok (id, s₁) ∧
      GetOrCreateConversation s₁ "s1" none none = .ok (id, s₁) ∧
      s₁.conversations.length = initState.conversations.length + 1 ∧
      (s₁.conversations.filter (fun c => c.session_id == "s1")).length = 1 :=
  GetOrCreateConversation_idempotent initState "s1" none none (by decide)

/-- C2 (amended): a successful `GetRatingStats` reports the row count, an
average equal to the arithmetic mean of the stored scores, and a
distribution containing an entry exactly for each score value that occurs
(with the group size as its count) — score values with zero occurrences are
absent from the distribution rather than mapped to an explicit 0. -/
theorem getRatingStats_spec (s : DBState) (h : s.ratings ≠ []) :
    ∃ stats, GetRatingStats s = .ok stats ∧
      stats.total_ratings = s.ratings.length ∧
      stats.average_rating * (s.ratings.length : ℚ) =
        (s.ratings.map (fun r => (r.rating : ℚ))).sum ∧
      (∀ v, stats.distribution v = none ↔
        (s.ratings.filter (fun r => r.rating == v)).length = 0) ∧
      (∀ v c, stats.distribution v = some c →
        c = (s.ratings.filter (fun r => r.rating == v)).length ∧ 0 < c) := by
  have hlen : s.ratings.length ≠ 0 := by
    simpa [List.length_eq_zero] using h
  have hleq : (s.ratings.length == 0) = false := by
    simp [hlen]
  refine ⟨{ average_rating :=
              (s.ratings.map (fun r => (r.rating : ℚ))).sum / (s.ratings.length : ℚ)
            distribution := distributionOf s.ratings
            total_ratings := s.ratings.length }, ?_, rfl, ?_, ?_, ?_⟩
  · simp only [GetRatingStats, sqlAvg, hleq, Bool.false_eq_true, if_false, scanFloat,
      List.length_map]
    rfl
  · have hcast : (s.ratings.length : ℚ) ≠ 0 := by exact_mod_cast hlen
    exact div_mul_cancel₀ _ hcast
  · intro v
    simp only [distributionOf]
    constructor
    · intro hv
      by_cases hc : ((s.ratings.filter (fun r => r.rating == v)).length == 0) = true
      · simpa using hc
      · simp [hc] at hv
    · intro hv
      simp [hv]
  · intro v c hv
    simp only [distributionOf] at hv
    by_cases hc : ((s.ratings.filter (fun r => r.rating == v)).length == 0) = true
    · simp [hc] at hv
    · simp [hc] at hv
      have : (s.ratings.filter (fun r => r.rating == v)).length ≠ 0 := by simpa using hc
      omega

/-- Witness for `getRatingStats_spec` at the spec scenario's store (ratings
`5` then `3` on one conversation). -/
theorem getRatingStats_spec_witness :
    ∃ stats, GetRatingStats demoState = .ok stats ∧
      stats.total_ratings = demoState.ratings.length ∧
      stats.average_rating * (demoState.ratings.length : ℚ) =
        (demoState.ratings.map (fun r => (r.rating : ℚ))).sum ∧
      (∀ v, stats.distribution v = none ↔
        (demoState.ratings.filter (fun r => r.rating == v)).length = 0) ∧
      (∀ v c, stats.distribution v = some c →
        c = (demoState.ratings.filter (fun r => r.rating == v)).length ∧ 0 < c) :=
  getRatingStats_spec demoState (by decide)

/-- C2 (counterexample to the claim as stated): after rating the scenario's
conversation `5` and then `3`, the stats snapshot has `totalCount = 2`,
`averageScore = 4`, and distribution entries `3 ↦ 1` and `5 ↦ 1`, but no
entry at all for the never-occurring scores — in particular score `1` maps
to nothing, not to an explicit `0` as the claim requires. -/
theorem getRatingStats_distribution_omits_zero_scores :
    ∃ stats, GetRatingStats demoState = .ok stats ∧
      stats.total_ratings = 2 ∧
      stats.average_rating = 4 ∧
      stats.distribution 3 = some 1 ∧ stats.distribution 5 = some 1 ∧
      stats.distribution 1 = none ∧ ¬ stats.distribution 1 = some 0 := by
  refine ⟨_, rfl, ?_, ?_, ?_, ?_, ?_, ?_⟩ <;>
    first
      | decide
      | (simp [demoState, demoConvState, CreateConversationRating, insertRating,
            CreateConversation, initState]
         norm_num)

/-- A successful raw rating insert passed every table constraint: the row
carries the given parents, exactly one of them is set, and it was appended
to the table. -/
theorem insertRating_ok_cases (s : DBState) (cid mid : Option Nat)
    (rating : Nat) (comment : Option String) (r' : RatingRow) (s' : DBState)
    (h : insertRating s cid mid rating comment = .ok (r', s')) :
    r'.conversation_id = cid ∧ r'.message_id = mid ∧
    s'.ratings = s.ratings ++ [r'] ∧
    ((cid.isSome && mid.isNone) || (cid.isNone && mid.isSome)) = true := by
  unfold insertRating at h
  split at h
  · cases h
  split at h
  · cases h
  next hp =>
    split at h
    · cases h
    split at h
    · cases h
    injection h with h'
    injection h' with h1 h2
    subst h1
    subst h2
    refine ⟨rfl, rfl, rfl, ?_⟩
    cases cid <;> cases mid <;> simp_all

/-- C9: the ratings table's CHECK constraint admits a row exactly when one
parent reference is set — an insert with both parents or neither parent is
rejected with a constraint violation and writes nothing, so every store
whose rows all satisfy the exactly-one-parent invariant still satisfies it
after any raw insert attempt. -/
theorem ratings_exactly_one_parent (s : DBState) (cid mid : Option Nat)
    (rating : Nat) (comment : Option String) :
    (((cid.isSome ∧ mid.isSome) ∨ (cid = none ∧ mid = none)) →
      insertRating s cid mid rating comment = .error .checkViolation) ∧
    (ratingParentInv s →
      ratingParentInv (afterInsertRating s cid mid rating comment)) := by
  constructor
  · intro hbad
    have hcond : ((cid.isSome && mid.isNone) || (cid.isNone && mid.isSome)) = false := by
      rcases hbad with ⟨h1, h2⟩ | ⟨h1, h2⟩ <;> cases cid <;> cases mid <;> simp_all
    unfold insertRating
    split
    · rfl
    · simp [hcond]
  · intro hinv
    unfold afterInsertRating
    cases heq : insertRating s cid mid rating comment with
    | error e => exact hinv
    | ok p =>
      obtain ⟨r', s'⟩ := p
      obtain ⟨hc, hm, hrat, hpar⟩ := insertRating_ok_cases s cid mid rating comment r' s' heq
      intro r hr
      rw [hrat] at hr
      rcases List.mem_append.mp hr with hold | hnew
      · exact hinv r hold
      · rcases List.mem_singleton.mp hnew with rfl
        rw [hc, hm]
        cases cid <;> cases mid <;> simp_all

/-- Witness for `ratings_exactly_one_parent`: both-parents and no-parent
inserts are rejected, and the invariant survives a well-formed insert. -/
theorem ratings_exactly_one_parent_witness :
    insertRating demoConvState (some 1) (some 1) 3 none = .error .checkViolation ∧
    insertRating demoConvState none none 3 none = .error .checkViolation ∧
    ratingParentInv (afterInsertRating demoConvState (some 1) none 5 none) :=
  ⟨(ratings_exactly_one_parent demoConvState (some 1) (some 1) 3 none).1
      (Or.inl (by decide)),
   (ratings_exactly_one_parent demoConvState none none 3 none).1
      (Or.inr (by decide)),
   (ratings_exactly_one_parent demoConvState (some 1) none 5 none).2
      (by intro r hr; simp [demoConvState, CreateConversation, initState] at hr)⟩

/-- `demoConvState` after storing the prompt `"hello"` and rating both the
conversation (score 5) and the message (score 4). -/
def demoFullState : DBState :=
  let s1 := match CreateMessage demoConvState 1 "prompt" "hello" none none with
    | .ok (_, s) => s
    | .error _ => demoConvState
  let s2 := match CreateConversationRating s1 1 5 none with
    | .ok (_, s) => s
    | .error _ => s1
  match CreateMessageRating s2 1 4 none with
    | .ok (_, s) => s
    | .error _ => s2

/-- C5: deleting an existing conversation removes, in one transaction, the
conversation row, all of its messages, and (via cascade) every rating
referencing the conversation or one of its messages, while every unrelated
row survives; deleting a missing id yields `ErrConversationNotFound` with
the transaction rolled back, so no row anywhere is deleted. -/
theorem DeleteConversation_spec (s : DBState) (id : Nat) :
    ((∃ c ∈ s.conversations, c.id = id) →
      ∃ s', DeleteConversation s id = .ok s' ∧
        (∀ c ∈ s'.conversations, c.id ≠ id) ∧
        (∀ m ∈ s'.messages, m.conversation_id ≠ id) ∧
        (∀ r ∈ s'.ratings, r.conversation_id ≠ some id ∧
          ∀ m ∈ s.messages, m.conversation_id = id → r.message_id ≠ some m.id) ∧
        (∀ c ∈ s.conversations, c.id ≠ id → c ∈ s'.conversations) ∧
        (∀ m ∈ s.messages, m.conversation_id ≠ id → m ∈ s'.messages) ∧
        (∀ r ∈ s.ratings, r.conversation_id ≠ some id →
          (∀ m ∈ s.messages, m.conversation_id = id → r.message_id ≠ some m.id) →
          r ∈ s'.ratings)) ∧
    ((∀ c ∈ s.conversations, c.id ≠ id) →
      DeleteConversation s id = .error .conversationNotFound) := by
  constructor
  · rintro ⟨c, hc, hcid⟩
    have hmem : c ∈ s.conversations.filter (fun c => c.id == id) :=
      List.mem_filter.mpr ⟨hc, by simp [hcid]⟩
    have hra : ((s.conversations.filter (fun c => c.id == id)).length == 0) = false := by
      have hne := List.ne_nil_of_mem hmem
      simp [List.length_eq_zero, hne]
    refine ⟨{ s with
        conversations := s.conversations.filter (fun c => !(c.id == id))
        messages := s.messages.filter (fun m => !(m.conversation_id == id))
        ratings := (s.ratings.filter (fun r =>
          match r.message_id with
          | some mid =>
            !(((s.messages.filter (fun m => m.conversation_id == id)).map (·.id)).contains mid)
          | none => true)).filter (fun r => !(r.conversation_id == some id)) },
      ?_, ?_, ?_, ?_, ?_, ?_, ?_⟩
    · unfold DeleteConversation
      simp only [hra, Bool.false_eq_true, if_false]
    · intro c' hc'
      have := (List.mem_filter.mp hc').2
      simpa using this
    · intro m hm
      have := (List.mem_filter.mp hm).2
      simpa using this
    · intro r hr
      have houter := (List.mem_filter.mp hr).2
      have hinner := (List.mem_filter.mp (List.mem_filter.mp hr).1).2
      constructor
      · simpa using houter
      · intro m hm hmc heq
        rw [heq] at hinner
        have hmmem : m.id ∈ (s.messages.filter (fun m => m.conversation_id == id)).map (·.id) :=
          List.mem_map.mpr ⟨m, List.mem_filter.mpr ⟨hm, by simp [hmc]⟩, rfl⟩
        simp only [Bool.not_eq_true'] at hinner
        rw [← List.elem_iff] at hmmem
        simp [List.contains] at hinner hmmem
        obtain ⟨a, ⟨ha, hac⟩, haid⟩ := hmmem
        exact hinner a ha hac haid
    · intro c' hc' hne
      exact List.mem_filter.mpr ⟨hc', by simpa using hne⟩
    · intro m hm hne
      exact List.mem_filter.mpr ⟨hm, by simpa using hne⟩
    · intro r hr hconv hmsg
      refine List.mem_filter.mpr ⟨List.mem_filter.mpr ⟨hr, ?_⟩, by simpa using hconv⟩
      cases hmid : r.message_id with
      | none => simp
      | some mid =>
        simp only [Bool.not_eq_true']
        by_cases hin : mid ∈ (s.messages.filter (fun m => m.conversation_id == id)).map (·.id)
        · rcases List.mem_map.mp hin with ⟨m, hmmem, hmid'⟩
          have hmc : m.conversation_id = id := by
            have := (List.mem_filter.mp hmmem).2
            simpa using this
          exact absurd (hmid ▸ congrArg some hmid'.symm)
            (hmsg m (List.mem_filter.mp hmmem).1 hmc)
        · rw [← List.elem_iff] at hin
          simp [List.contains] at hin ⊢
          exact hin
  · intro h
    have hfil : s.conversations.filter (fun c => c.id == id) = [] :=
      List.filter_eq_nil_iff.mpr (fun c hc => by simp [h c hc])
    unfold DeleteConversation
    simp [hfil]

/-- Witness for `DeleteConversation_spec`: deleting conversation 1 of the
populated demo store, and deleting from the empty store. -/
theorem DeleteConversation_spec_witness :
    (∃ s', DeleteConversation demoFullState 1 = .ok s' ∧
        (∀ c ∈ s'.conversations, c.id ≠ 1) ∧
        (∀ m ∈ s'.messages, m.conversation_id ≠ 1) ∧
        (∀ r ∈ s'.ratings, r.conversation_id ≠ some 1 ∧
          ∀ m ∈ demoFullState.messages, m.conversation_id = 1 → r.message_id ≠ some m.id) ∧
        (∀ c ∈ demoFullState.conversations, c.id ≠ 1 → c ∈ s'.conversations) ∧
        (∀ m ∈ demoFullState.messages, m.conversation_id ≠ 1 → m ∈ s'.messages) ∧
        (∀ r ∈ demoFullState.ratings, r.conversation_id ≠ some 1 →
          (∀ m ∈ demoFullState.messages, m.conversation_id = 1 → r.message_id ≠ some m.id) →
          r ∈ s'.ratings)) ∧
    DeleteConversation initState 1 = .error .conversationNotFound :=
  ⟨(DeleteConversation_spec demoFullState 1).1 (by decide),
   (DeleteConversation_spec initState 1).2 (by decide)⟩

/-- A migration run only ever appends to the bookkeeping table. -/
theorem runMigrations_recorded_mono (files : List MigrationFile) (s : MigState) :
    ∃ new, (runMigrations s files).1.recorded = s.recorded ++ new := by
  induction files generalizing s with
  | nil => exact ⟨[], by simp [runMigrations]⟩
  | cons f rest ih =>
    rw [runMigrations]
    split
    · exact ih s
    split
    · exact ⟨[], by simp⟩
    split
    · exact ⟨[], by simp⟩
    obtain ⟨new, hnew⟩ :=
      ih ⟨s.schema ++ [f.content], s.recorded ++ [extractVersionFromFilename f.filename]⟩
    exact ⟨extractVersionFromFilename f.filename :: new, by rw [hnew]; simp⟩

/-- C3: a migration run that fails did so on the first not-yet-recorded
script whose execution or bookkeeping insert failed; the reported error
names that script and the step that failed, and the resulting state is
exactly the state of running only the scripts before it — the failing
script left neither a schema change nor a bookkeeping row, and every
previously applied migration is intact. -/
theorem runMigrations_failure_atomic (files : List MigrationFile)
    (s st' : MigState) (e : String)
    (h : runMigrations s files = (st', some e)) :
    ∃ pre f rest, files = pre ++ f :: rest ∧
      runMigrations s pre = (st', none) ∧
      extractVersionFromFilename f.filename ∉ st'.recorded ∧
      ((f.execOk = false ∧ e = "failed to execute migration " ++ f.filename) ∨
       (f.execOk = true ∧ f.recordOk = false ∧
         e = "failed to record migration " ++ f.filename)) := by
  induction files generalizing s with
  | nil =>
    rw [runMigrations] at h
    exact absurd (Prod.ext_iff.mp h).2 (by simp)
  | cons f rest ih =>
    rw [runMigrations] at h
    split at h
    case isTrue hskip =>
      obtain ⟨pre, f', rest', hdecomp, hpre, hnot, hcase⟩ := ih s h
      refine ⟨f :: pre, f', rest', by rw [hdecomp]; rfl, ?_, hnot, hcase⟩
      rw [runMigrations, if_pos hskip]
      exact hpre
    case isFalse hskip =>
      have hnotrec : extractVersionFromFilename f.filename ∉ s.recorded := by
        intro hmem
        exact hskip (List.elem_iff.mpr hmem)
      split at h
      case isTrue hexec =>
        obtain ⟨h1, h2⟩ := Prod.ext_iff.mp h
        obtain rfl : s = st' := h1
        refine ⟨[], f, rest, rfl, by rw [runMigrations], hnotrec,
          Or.inl ⟨by simpa using hexec, (Option.some.inj h2).symm⟩⟩
      case isFalse hexec =>
        split at h
        case isTrue hrec =>
          obtain ⟨h1, h2⟩ := Prod.ext_iff.mp h
          obtain rfl : s = st' := h1
          refine ⟨[], f, rest, rfl, by rw [runMigrations], hnotrec,
            Or.inr ⟨by simpa using hexec, by simpa using hrec,
              (Option.some.inj h2).symm⟩⟩
        case isFalse hrec =>
          obtain ⟨pre, f', rest', hdecomp, hpre, hnot, hcase⟩ :=
            ih ⟨s.schema ++ [f.content],
                s.recorded ++ [extractVersionFromFilename f.filename]⟩ h
          refine ⟨f :: pre, f', rest', by rw [hdecomp]; rfl, ?_, hnot, hcase⟩
          rw [runMigrations, if_neg hskip, if_neg hexec, if_neg hrec]
          exact hpre

/-- Migration files used by the concrete run below: `001` applies cleanly,
`002`'s statement body fails to execute. -/
def failMigFiles : List MigrationFile :=
  [⟨"migrations/001_initial_schema.up.sql", "CREATE TABLE conversations", true, true⟩,
   ⟨"migrations/002_add_ratings.up.sql", "CREATE TABLE ratings", false, true⟩]

/-- Witness for `runMigrations_failure_atomic`: the failing two-script run
from an empty database. -/
theorem runMigrations_failure_atomic_witness :
    ∃ pre f rest, failMigFiles = pre ++ f :: rest ∧
      runMigrations ⟨[], []⟩ pre = (⟨["CREATE TABLE conversations"], ["001"]⟩, none) ∧
      extractVersionFromFilename f.filename ∉
        (⟨["CREATE TABLE conversations"], ["001"]⟩ : MigState).recorded ∧
      ((f.execOk = false ∧
          "failed to execute migration migrations/002_add_ratings.up.sql"
            = "failed to execute migration " ++ f.filename) ∨
       (f.execOk = true ∧ f.recordOk = false ∧
          "failed to execute migration migrations/002_add_ratings.up.sql"
            = "failed to record migration " ++ f.filename)) :=
  runMigrations_failure_atomic failMigFiles ⟨[], []⟩
    ⟨["CREATE TABLE conversations"], ["001"]⟩
    "failed to execute migration migrations/002_add_ratings.up.sql" (by decide)

/-- C4 (amended): after a successful run, a second run over the same files
is a no-op — every script's version token is already recorded, so every
script is skipped and the state (schema and bookkeeping) is unchanged; the
bookkeeping table, kept duplicate-free, holds exactly one row per **distinct
version token**: every file's token is recorded and every recorded row is
either pre-existing or some file's token.  (Two scripts sharing a token
share a single row — see the counterexample to the per-script phrasing.) -/
theorem runMigrations_second_run_noop (files : List MigrationFile)
    (s s₁ : MigState) (hnd : s.recorded.Nodup)
    (h : runMigrations s files = (s₁, none)) :
    runMigrations s₁ files = (s₁, none) ∧
    s₁.recorded.Nodup ∧
    (∀ f ∈ files, extractVersionFromFilename f.filename ∈ s₁.recorded) ∧
    (∀ v ∈ s₁.recorded, v ∈ s.recorded ∨
      ∃ f ∈ files, extractVersionFromFilename f.filename = v) := by
  induction files generalizing s with
  | nil =>
    rw [runMigrations] at h
    obtain rfl : s = s₁ := (Prod.ext_iff.mp h).1
    exact ⟨by rw [runMigrations], hnd, by simp, fun v hv => Or.inl hv⟩
  | cons f rest ih =>
    rw [runMigrations] at h
    split at h
    case isTrue hskip =>
      obtain ⟨hrun, hnd1, hall, hcomp⟩ := ih s hnd h
      have hs : extractVersionFromFilename f.filename ∈ s.recorded :=
        List.elem_iff.mp hskip
      have hmem : extractVersionFromFilename f.filename ∈ s₁.recorded := by
        obtain ⟨new, hnew⟩ := runMigrations_recorded_mono rest s
        rw [h] at hnew
        rw [hnew]
        exact List.mem_append_left _ hs
      refine ⟨?_, hnd1, ?_, ?_⟩
      · rw [runMigrations, if_pos (List.elem_iff.mpr hmem)]
        exact hrun
      · intro g hg
        rcases List.mem_cons.mp hg with rfl | hg'
        · exact hmem
        · exact hall g hg'
      · intro v hv
        rcases hcomp v hv with h1 | ⟨g, hg, hgv⟩
        · exact Or.inl h1
        · exact Or.inr ⟨g, List.mem_cons_of_mem f hg, hgv⟩
    case isFalse hskip =>
      have hnotrec : extractVersionFromFilename f.filename ∉ s.recorded := by
        intro hmem
        exact hskip (List.elem_iff.mpr hmem)
      split at h
      case isTrue hexec => exact absurd (Prod.ext_iff.mp h).2 (by simp)
      case isFalse hexec =>
        split at h
        case isTrue hrec => exact absurd (Prod.ext_iff.mp h).2 (by simp)
        case isFalse hrec =>
          have hnd' : (s.recorded ++ [extractVersionFromFilename f.filename]).Nodup := by
            simp [List.nodup_append, hnd, hnotrec]
          obtain ⟨hrun, hnd1, hall, hcomp⟩ :=
            ih ⟨s.schema ++ [f.content],
                s.recorded ++ [extractVersionFromFilename f.filename]⟩ hnd' h
          have hmem : extractVersionFromFilename f.filename ∈ s₁.recorded := by
            obtain ⟨new, hnew⟩ := runMigrations_recorded_mono rest
              ⟨s.schema ++ [f.content],
               s.recorded ++ [extractVersionFromFilename f.filename]⟩
            rw [h] at hnew
            rw [hnew]
            exact List.mem_append_left _ (List.mem_append_right _ (by simp))
          refine ⟨?_, hnd1, ?_, ?_⟩
          · rw [runMigrations, if_pos (List.elem_iff.mpr hmem)]
            exact hrun
          · intro g hg
            rcases List.mem_cons.mp hg with rfl | hg'
            · exact hmem
            · exact hall g hg'
          · intro v hv
            rcases hcomp v hv with h1 | ⟨g, hg, hgv⟩
            · rcases List.mem_append.mp h1 with h2 | h2
              · exact Or.inl h2
              · exact Or.inr ⟨f, List.mem_cons_self f rest, (List.mem_singleton.mp h2).symm⟩
            · exact Or.inr ⟨g, List.mem_cons_of_mem f hg, hgv⟩

/-- Two well-formed migration scripts whose filenames share the version
token `001`. -/
def dupTokenFiles : List MigrationFile :=
  [⟨"migrations/001_initial_schema.up.sql", "CREATE TABLE conversations", true, true⟩,
   ⟨"migrations/001_add_ratings.up.sql", "CREATE TABLE ratings", true, true⟩]

/-- C4 (counterexample to the claim as stated): with two scripts whose
filenames share the first-three-character version token `001`, a successful
run from an empty database records a single bookkeeping row (and never
executes the second script's body), so the bookkeeping table does not hold
one row per script. -/
theorem runMigrations_shared_token_counterexample :
    runMigrations ⟨[], []⟩ dupTokenFiles
      = (⟨["CREATE TABLE conversations"], ["001"]⟩, none) ∧
    dupTokenFiles.length = 2 ∧
    ¬ (runMigrations ⟨[], []⟩ dupTokenFiles).1.recorded.length = dupTokenFiles.length := by
  refine ⟨?_, ?_, ?_⟩ <;> decide

/-- Migration files with distinct version tokens for the idempotence
witness. -/
def demoMigFiles : List MigrationFile :=
  [⟨"migrations/001_initial_schema.up.sql", "CREATE TABLE conversations", true, true⟩,
   ⟨"migrations/002_add_ratings.up.sql", "CREATE TABLE ratings", true, true⟩]

/-- Witness for `runMigrations_second_run_noop`: the two-script run from an
empty database, then run again. -/
theorem runMigrations_second_run_noop_witness :
    runMigrations ⟨["CREATE TABLE conversations", "CREATE TABLE ratings"], ["001", "002"]⟩
        demoMigFiles
      = (⟨["CREATE TABLE conversations", "CREATE TABLE ratings"], ["001", "002"]⟩, none) ∧
    (⟨["CREATE TABLE conversations", "CREATE TABLE ratings"],
        ["001", "002"]⟩ : MigState).recorded.Nodup ∧
    (∀ f ∈ demoMigFiles, extractVersionFromFilename f.filename ∈
      (⟨["CREATE TABLE conversations", "CREATE TABLE ratings"],
          ["001", "002"]⟩ : MigState).recorded) ∧
    (∀ v ∈ (⟨["CREATE TABLE conversations", "CREATE TABLE ratings"],
          ["001", "002"]⟩ : MigState).recorded,
      v ∈ (⟨[], []⟩ : MigState).recorded ∨
        ∃ f ∈ demoMigFiles, extractVersionFromFilename f.filename = v) :=
  runMigrations_second_run_noop demoMigFiles ⟨[], []⟩
    ⟨["CREATE TABLE conversations", "CREATE TABLE ratings"], ["001", "002"]⟩
    (by decide) (by decide)

end PromptManager

namespace PromptManager

/-- C8: the connection string is the file path followed, in a fixed order, by
the always-present foreign-keys flag, then the busy-timeout in milliseconds
exactly when the configured busy-timeout is positive, then the WAL journal
flag exactly when WAL mode is enabled, then the synchronization strength
exactly when it is non-empty; being a pure function of the configuration it
is deterministic. -/
theorem buildConnectionString_composition (c : Config) :
    buildConnectionString c =
      c.databasePath ++ "?foreign_keys=1"
        ++ (if c.busyTimeout > 0 then "&_busy_timeout=" ++ toString (c.busyTimeout.tdiv 1000000) else "")
        ++ (if c.walMode then "&_journal_mode=WAL" else "")
        ++ (if c.synchronous ≠ "" then "&_sync=" ++ c.synchronous else "") := by
  unfold buildConnectionString
  by_cases hb : c.busyTimeout > 0 <;>
    by_cases hw : c.walMode <;>
      by_cases hs : c.synchronous ≠ "" <;>
        · apply String.ext
          simp [hb, hw, hs, String.data_append]

end PromptManager
